import Mathlib

/-!
Shallow embedding of the front-util/request client-side data-fetching engine.

The embedding follows `src/request.ts` (`createRequestInternal` and its helper
functions `handleResponse`, `executeRequestAttempt`, `executeRequestWithRetry`,
`refetch`, `cancel`, `destroy`), `src/cache.ts` (`CacheStore`),
`src/interceptors.ts` (`InterceptorManager`, array variant) and the utility
module (`isGetMethod`, `inferResponseType`, `parseResponse`, `buildRequestUrl`).

Conventions of the embedding:
- JavaScript runtime values that the engine can observe are modelled by
  `JSValue`; `null` and `undefined` are explicit constructors, structured
  payloads are opaque tagged values.
- `Date.now()` is passed explicitly as an integer `now` wherever the source
  reads the clock.
- Promise settlements of the awaited operations of one network attempt
  (interceptor pipeline, `fetch`, body reads) are supplied as an
  `AttemptOutcome`; exceptions travel as `Option JsError` / `Except` values.
- The observable side effects of a run (interceptor pipeline passes, network
  calls, validation checks, retry backoff sleeps) are recorded in an event
  trace, which lets theorems count network calls exactly.
-/

set_option maxRecDepth 8000

namespace FrontRequest

/-- JS values observed by the engine: `null`, `undefined`, strings, and
otherwise-opaque structured data identified by a tag. -/
inductive JSValue
  | null
  | undefined
  | str (s : String)
  | val (tag : String)
deriving DecidableEq, Repr

/-- The error taxonomy of `src/errors.ts`, plus the raw platform errors the
engine inspects: `DOMException` aborts (`domAbort`) and other JS errors such
as the `TypeError` a failed `fetch` rejects with (`generic name msg`). -/
inductive JsError
  | network (msg : String) (url : String) (method : Option String)
  | timeout
  | cancellation
  | http (statusText : String) (status : Nat) (body : Option JSValue)
      (url : Option String) (method : Option String)
  | parsing (msg : String)
  | validation (msg : String)
  | domAbort
  | generic (name : String) (msg : String)
deriving DecidableEq, Repr

/-- The `name` property of the error object (set in each error class
constructor; `AbortError` for the DOMException raised by an aborted fetch). -/
def JsError.errName : JsError → String
  | .network _ _ _ => "NetworkError"
  | .timeout => "TimeoutError"
  | .cancellation => "CancellationError"
  | .http _ _ _ _ _ => "HttpError"
  | .parsing _ => "ParsingError"
  | .validation _ => "ValidationError"
  | .domAbort => "AbortError"
  | .generic n _ => n

/-- The `message` property of the error object, as built by the constructors
in `src/errors.ts`. -/
def JsError.errMessage : JsError → String
  | .network m _ _ => "Network Error: " ++ m
  | .timeout => "Request timed out."
  | .cancellation => "Request was cancelled."
  | .http m s _ _ _ => "HTTP Error " ++ toString s ++ ": " ++ m
  | .parsing m => "Parsing Error: " ++ m
  | .validation m => "Validation Error: " ++ m
  | .domAbort => "The operation was aborted."
  | .generic _ m => m

/-- `FetchState<TData, TError>` of `src/types.ts`: the discriminated union
published by a request store.  `loading` carries the optional
stale-while-revalidate data, `error` carries the optional HTTP status. -/
inductive FetchState
  | idle
  | loading (data : Option JSValue)
  | success (status : Nat) (data : JSValue)
  | empty (status : Nat)
  | error (status : Option Nat) (err : JsError)
deriving DecidableEq, Repr

/-- `responseType` hint of `RequestConfig`. -/
inductive ResponseType
  | json
  | text
  | blob
  | arrayBuffer
  | formData
deriving DecidableEq, Repr

/-- JS `a || b` on strings: `none` (undefined) and the empty string are falsy. -/
def jsOrString : Option String → String → String
  | some s, d => if s = "" then d else s
  | none, d => d

/-- JS truthiness of an optional number: `undefined` and `0` are falsy. -/
def jsTruthyNat : Option Nat → Bool
  | none => false
  | some n => n != 0

/-- `RequestConfig` of `src/types.ts`, restricted to the fields the engine
reads.  `validateResponse`/`hasResponseSchema` model the presence of
`config.validate?.response` and `config.schemas?.response`. -/
structure RequestConfig where
  url : String
  method : Option String := none
  headers : List (String × String) := []
  ttl : Option Int := none
  forceRefresh : Bool := false
  timeout : Option Nat := none
  retries : Option Nat := none
  retryDelay : Option Nat := none
  retryOn : Option (JsError → Bool) := none
  emptyStatusCodes : List Nat := []
  cacheKey : Option String := none
  responseType : Option ResponseType := none
  validateResponse : Bool := false
  hasResponseSchema : Bool := false

/-- `toUpperCase`, computed characterwise (kernel-reducible, unlike
`String.toUpper`, which recurses on byte positions). -/
def toUpperStr (s : String) : String := String.mk (s.data.map Char.toUpper)

/-- `isGetMethod` of the utility module:
`(config.method || 'GET').toUpperCase() === 'GET'`. -/
def isGetMethod (config : RequestConfig) : Bool :=
  toUpperStr (jsOrString config.method "GET") == "GET"

/-- `generateCacheKey` of `src/cache.ts`:
`config.cacheKey || method:url` (with method defaulting to GET). -/
def generateCacheKey (config : RequestConfig) : String :=
  jsOrString config.cacheKey (jsOrString config.method "GET" ++ ":" ++ config.url)

/-- `CacheEntry` of `src/types.ts`: `{data, status, ttlTimestamp}`. -/
structure CacheEntry where
  data : JSValue
  status : Nat
  ttlTimestamp : Int
deriving DecidableEq, Repr

/-- The private `Map<string, CacheEntry>` of `CacheStore`.  A JS `Map` has
unique keys; it is modelled extensionally as a function from keys to
optional entries (no claim depends on the iteration order). -/
def CacheMap := String → Option CacheEntry

/-- The empty `Map`. -/
def emptyCacheMap : CacheMap := fun _ => none

/-- `Map.get`. -/
def mapLookup (m : CacheMap) (k : String) : Option CacheEntry := m k

/-- `Map.set`. -/
def mapInsert (m : CacheMap) (k : String) (v : CacheEntry) : CacheMap :=
  fun k2 => if k2 = k then some v else m k2

/-- `Map.delete`. -/
def mapErase (m : CacheMap) (k : String) : CacheMap :=
  fun k2 => if k2 = k then none else m k2

namespace CacheStore

/-- `CacheStore.get` of `src/cache.ts`: `null` for non-GET configs; a hit on
an expired entry lazily deletes it and reports a miss.  The first component
is the cache after the (possibly evicting) read. -/
def get (m : CacheMap) (config : RequestConfig) (now : Int) :
    CacheMap × Option CacheEntry :=
  if !isGetMethod config then (m, none)
  else
    let key := generateCacheKey config
    match mapLookup m key with
    | none => (m, none)
    | some entry =>
        if entry.ttlTimestamp < now then (mapErase m key, none)
        else (m, some entry)

/-- `CacheStore.set` of `src/cache.ts`: a no-op unless the method is GET and
`ttl > 0`; otherwise stores `{data, status, ttlTimestamp: now + ttl}`. -/
def set (m : CacheMap) (config : RequestConfig) (data : JSValue)
    (status : Nat) (ttl : Int) (now : Int) : CacheMap :=
  if !isGetMethod config || ttl ≤ 0 then m
  else mapInsert m (generateCacheKey config) ⟨data, status, now + ttl⟩

/-- `CacheStore.invalidate` applied to a config: deletes the entry under the
config fingerprint. -/
def invalidateConfig (m : CacheMap) (config : RequestConfig) : CacheMap :=
  mapErase m (generateCacheKey config)

/-- `CacheStore.invalidateByPattern`: deletes every entry whose key matches
the pattern, modelled as a Boolean predicate on keys. -/
def invalidateByPattern (m : CacheMap) (pattern : String → Bool) : CacheMap :=
  fun k => if pattern k then none else m k

/-- `CacheStore.clear`. -/
def clear (_m : CacheMap) : CacheMap := emptyCacheMap

end CacheStore

/-- `InterceptorManager` of `src/interceptors.ts` (array variant): a list of
handler slots; an ejected slot is nulled, never compacted away. -/
structure InterceptorManager (γ : Type) where
  handlers : List (Option (γ → γ)) := []

namespace InterceptorManager

/-- `use`: appends the handler and returns its stable index as the id. -/
def use {γ : Type} (m : InterceptorManager γ) (interceptor : γ → γ) :
    InterceptorManager γ × Int :=
  ({ handlers := m.handlers ++ [some interceptor] }, (m.handlers.length : Int))

/-- `eject(id)`: nulls the slot when `0 <= id < handlers.length`, otherwise
does nothing. -/
def eject {γ : Type} (m : InterceptorManager γ) (id : Int) :
    InterceptorManager γ :=
  if 0 ≤ id ∧ id < (m.handlers.length : Int) then
    { handlers := m.handlers.set id.toNat none }
  else m

/-- `applyInterceptors(config)`: folds the live handlers over the config in
registration order, each receiving the previous handler output (the source
awaits each handler in turn; the sequential composition is the same). -/
def applyInterceptors {γ : Type} (m : InterceptorManager γ) (config : γ) : γ :=
  m.handlers.foldl
    (fun currentConfig h =>
      match h with
      | none => currentConfig
      | some handler => handler currentConfig)
    config

/-- The currently-live steps, in registration order. -/
def liveSteps {γ : Type} (m : InterceptorManager γ) : List (γ → γ) :=
  m.handlers.filterMap id

end InterceptorManager

/-- True when the first char list starts the second. -/
def startsWithChars : List Char → List Char → Bool
  | [], _ => true
  | _ :: _, [] => false
  | c :: cs, d :: ds => c == d && startsWithChars cs ds

/-- True when the first char list occurs inside the second. -/
def containsChars (needle : List Char) : List Char → Bool
  | [] => needle.isEmpty
  | d :: ds => startsWithChars needle (d :: ds) || containsChars needle ds

/-- True when the needle occurs as a substring (`String.includes`). -/
def substrIn (needle hay : String) : Bool :=
  containsChars needle.toList hay.toList

/-- `inferResponseType` of the utility module: content-type sniffing. -/
def inferResponseType (contentType : String) : ResponseType :=
  if substrIn "json" contentType then .json
  else if substrIn "form-data" contentType then .formData
  else if substrIn "text" contentType then .text
  else .blob

/-- The body-read capabilities of a `Response` as `parseResponse` uses them:
each channel either resolves (possibly to JS `null`) or rejects. -/
structure RawResponse where
  contentType : String
  jsonR : Except Unit JSValue
  textR : Except Unit String
  blobR : Except Unit JSValue
  arrayBufferR : Except Unit JSValue
  formDataR : Except Unit JSValue

/-- `parseResponse` of the utility module.  Status 204/205 returns `null`
before any body read; `json()` and `formData()` rejections are swallowed to
`null` by the attached `.catch`; empty text returns `null`; any other body
read rejection is rethrown as a `ParsingError` (modelled as `.error ()`);
a `null`/`undefined` parsed body collapses to `null`. -/
def parseResponse (status : Nat) (response : RawResponse)
    (configType : Option ResponseType) : Except Unit JSValue :=
  let responseType := configType.getD (inferResponseType response.contentType)
  if status = 204 ∨ status = 205 then .ok .null
  else
    let bodyRead : Except Unit JSValue :=
      match responseType with
      | .json =>
          .ok (match response.jsonR with
               | .ok v => v
               | .error _ => .null)
      | .text =>
          match response.textR with
          | .ok s => .ok (if s = "" then .null else .str s)
          | .error e => .error e
      | .blob => response.blobR
      | .arrayBuffer => response.arrayBufferR
      | .formData =>
          .ok (match response.formDataR with
               | .ok v => v
               | .error _ => .null)
    match bodyRead with
    | .error e => .error e
    | .ok parsedBody =>
        if parsedBody = .null ∨ parsedBody = .undefined then .ok .null
        else .ok parsedBody

/-- The observable side effects of a run: one `interceptorPass` per
invocation of the interceptor pipeline, one `fetchCall` per network call,
one `validationCheck` per response-schema validation, one `sleep` per retry
backoff delay. -/
inductive REvent
  | interceptorPass
  | fetchCall (url : String)
  | validationCheck
  | sleep (ms : Nat)
deriving DecidableEq, Repr

/-- The mutable closure state of one `createRequestInternal` store:
`isRequestStoreDestroyed`, the published state signal, the (shared) TTL
cache, `globalRequestCounter`/`requestExecutionId`, and the
`activeRequestController` (presence plus its aborted flag), together with
the recorded event trace. -/
structure EngineSt where
  destroyed : Bool := false
  state : FetchState := .idle
  cache : CacheMap := emptyCacheMap
  events : List REvent := []
  globalCounter : Nat := 0
  requestExecutionId : Nat := 0
  hasController : Bool := false
  ctrlAborted : Bool := false

/-- The freshly-constructed store. -/
def initEngineSt : EngineSt := {}

/-- `updateState`: writes the state signal unless the store is destroyed. -/
def updateState (st : EngineSt) (newState : FetchState) : EngineSt :=
  if st.destroyed then st else { st with state := newState }

/-- Appends an event to the trace (bookkeeping of the embedding). -/
def addEvent (st : EngineSt) (e : REvent) : EngineSt :=
  { st with events := st.events ++ [e] }

/-- `isExplicitlyEmptyStatus`: membership of the status in
`[204, 205] ++ config.emptyStatusCodes`. -/
def isExplicitlyEmptyStatus (config : RequestConfig) (status : Nat) : Bool :=
  ([204, 205] ++ config.emptyStatusCodes).contains status

/-- The `ServiceContext` the client factory binds into every store. -/
structure ServiceContext where
  baseURL : String
  interceptors : InterceptorManager RequestConfig
  defaultHeaders : List (String × String) := []

/-- `String.startsWith`, computed characterwise (kernel-reducible). -/
def startsWithStr (s needle : String) : Bool :=
  startsWithChars needle.data s.data

/-- `String.endsWith`, computed characterwise (kernel-reducible). -/
def endsWithStr (s needle : String) : Bool :=
  startsWithChars needle.data.reverse s.data.reverse

/-- `String.slice(n)`, computed characterwise (kernel-reducible). -/
def dropStr (s : String) (n : Nat) : String := String.mk (s.data.drop n)

/-- `buildRequestUrl`: resolves a relative config URL against the base URL;
URLs starting with `http` or `//` are absolute; the empty base URL is falsy. -/
def buildRequestUrl (ctx : ServiceContext) (url : String) : String :=
  let isAbsolute := startsWithStr url "http" || startsWithStr url "//"
  if !isAbsolute && ctx.baseURL ≠ "" then
    let base := if endsWithStr ctx.baseURL "/" then ctx.baseURL
                else ctx.baseURL ++ "/"
    let path := if startsWithStr url "/" then dropStr url 1 else url
    base ++ path
  else url

/-- Object spread `{...defaultHeaders, ...configHeaders}`: config wins. -/
def mergeHeaders (defaults config : List (String × String)) :
    List (String × String) :=
  defaults.filter (fun p => !(config.any (fun q => q.1 == p.1))) ++ config

/-- The `Response` as `handleResponse` observes it: status line, the body
channels of the clone used by `parseResponse`, and the clone `json()` used
for the error-body read. -/
structure HResp where
  ok : Bool
  status : Nat
  statusText : String := ""
  raw : RawResponse
  errJsonR : Except Unit JSValue := .error ()

/-- How the awaited operations of one attempt settle: the interceptor
pipeline throws, `fetch` rejects (with the given error), or `fetch`
resolves to a response (recording whether the abort signal was already set
when it resolved). -/
inductive AttemptOutcome
  | interceptorThrow (e : JsError)
  | fetchReject (e : JsError)
  | fetchResolve (resp : HResp) (abortedAtResolve : Bool)

/-- `handleResponse` of `src/request.ts`: classifies a received response.
`ok` responses are body-parsed (a parse failure throws `ParsingError`,
returned as `.error`), optionally schema-validated (recorded as an event;
validation never changes the outcome), and then published as `empty`
(cache invalidated) or `success` (cache written when `ttl > 0`); non-`ok`
responses are published as `empty` (cache invalidated) or as an `HttpError`
error state with the best-effort parsed error body (cache invalidated).
The `isExplicitlyEmptyStatus` closure (request.ts:45-50) reads
`requestConfig.emptyStatusCodes` — the store *template* config — while the
body parse, validation, ttl, cache key and `HttpError` fields come from the
post-interceptor `finalConfig` argument. -/
def handleResponse (requestConfig finalConfig : RequestConfig) (now : Int)
    (resp : HResp) (finalUrl : String) (st : EngineSt) :
    Except JsError EngineSt :=
  let status := resp.status
  if resp.ok then
    match parseResponse status resp.raw finalConfig.responseType with
    | .error _ => .error (.parsing "Failed to parse successful response body")
    | .ok resultData =>
        let st :=
          if finalConfig.validateResponse && finalConfig.hasResponseSchema then
            addEvent st .validationCheck
          else st
        if isExplicitlyEmptyStatus requestConfig status then
          let st := updateState st (.empty status)
          .ok { st with cache := CacheStore.invalidateConfig st.cache finalConfig }
        else
          let st := updateState st (.success status resultData)
          match finalConfig.ttl with
          | some ttl =>
              if ttl ≠ 0 ∧ ttl > 0 then
                .ok { st with cache :=
                        CacheStore.set st.cache finalConfig resultData status ttl now }
              else .ok st
          | none => .ok st
  else
    if isExplicitlyEmptyStatus requestConfig status then
      let st := updateState st (.empty status)
      .ok { st with cache := CacheStore.invalidateConfig st.cache finalConfig }
    else
      let errorBody : Option JSValue :=
        match resp.errJsonR with
        | .ok v => some v
        | .error _ => none
      let httpError :=
        JsError.http resp.statusText status errorBody (some finalUrl)
          finalConfig.method
      let st := updateState st (.error (some status) httpError)
      .ok { st with cache := CacheStore.invalidateConfig st.cache finalConfig }

/-- The stale-while-revalidate data carried into `loading`: the previous
data when the current state is `success` or `loading`, nothing otherwise. -/
def previousDataOf : FetchState → Option JSValue
  | .success _ d => some d
  | .loading d => d
  | _ => none

/-- `executeRequestAttempt` of `src/request.ts`: one network attempt.
Returns the new state plus the exception the attempt throws, if any.
An interceptor throw is caught by the `applyInterceptors` wrapper (which
publishes the error state) and then swallowed by the attempt. A `fetch`
rejection named `AbortError` under a truthy `finalConfig.timeout` is
rethrown as `TimeoutError`, any other rejection is rethrown as-is. A
resolved response with the abort signal already set throws
`CancellationError`; a stale or destroyed attempt returns silently;
otherwise the response is classified by `handleResponse`. -/
def executeRequestAttempt (ctx : ServiceContext) (requestConfig : RequestConfig)
    (now : Int) (executionId : Nat) (out : AttemptOutcome) (st : EngineSt) :
    EngineSt × Option JsError :=
  if st.destroyed then (st, none)
  else
    let previousData : Option JSValue := previousDataOf st.state
    let st := updateState st (.loading previousData)
    match out with
    | .interceptorThrow e => (updateState st (.error none e), none)
    | .fetchReject e =>
        let st := addEvent st .interceptorPass
        let finalConfig := ctx.interceptors.applyInterceptors requestConfig
        let finalUrl := buildRequestUrl ctx finalConfig.url
        let st := addEvent st (.fetchCall finalUrl)
        if e.errName == "AbortError" && jsTruthyNat finalConfig.timeout then
          (st, some .timeout)
        else (st, some e)
    | .fetchResolve resp abortedAtResolve =>
        let st := addEvent st .interceptorPass
        let finalConfig := ctx.interceptors.applyInterceptors requestConfig
        let finalUrl := buildRequestUrl ctx finalConfig.url
        let st := addEvent st (.fetchCall finalUrl)
        if abortedAtResolve then (st, some .cancellation)
        else if executionId ≠ st.requestExecutionId ∨ st.destroyed then (st, none)
        else
          match handleResponse requestConfig finalConfig now resp finalUrl st with
          | .ok st2 => (st2, none)
          | .error e => (st, some e)

/-- The default retry predicate of `executeRequestWithRetry`:
`NetworkError`, `TimeoutError`, or `HttpError` with status `>= 500`
(checked by `instanceof`, so only instances of the error classes match). -/
def defaultShouldRetry : JsError → Bool
  | .network _ _ _ => true
  | .timeout => true
  | .http _ s _ _ _ => 500 ≤ s
  | _ => false

/-- JS truthiness of `requestConfig.retries`. -/
def retriesTruthy : Option Nat → Bool
  | none => false
  | some r => r != 0

/-- The `while(true)` loop of `executeRequestWithRetry`: per iteration it
aborts the previous controller, allocates a fresh execution id and
controller, runs one attempt (with the next scheduled `AttemptOutcome`),
and on a thrown error either returns silently (a `DOMException` abort),
retries after the backoff delay, or wraps and commits the terminal error
state.  The outcome list is the schedule of attempt settlements; an empty
list leaves the run unfinished. -/
def runRetryLoop (ctx : ServiceContext) (requestConfig : RequestConfig)
    (now : Int) : List AttemptOutcome → Nat → EngineSt → EngineSt
  | [], _, st => st
  | out :: rest, attempt, st =>
      let st := if st.hasController then { st with ctrlAborted := true } else st
      let st := { st with globalCounter := st.globalCounter + 1 }
      let st := { st with requestExecutionId := st.globalCounter }
      let st := { st with hasController := true, ctrlAborted := false }
      let executionId := st.requestExecutionId
      match executeRequestAttempt ctx requestConfig now executionId out st with
      | (st, none) => st
      | (st, some e) =>
          if e = .domAbort then st
          else
            let shouldRetry :=
              retriesTruthy requestConfig.retries &&
              attempt ≤ requestConfig.retries.getD 0 &&
              (match requestConfig.retryOn with
               | some p => p e
               | none => defaultShouldRetry e)
            if !shouldRetry then
              let finalPair : JsError × Option Nat :=
                match e with
                | .parsing m => (.parsing m, none)
                | .http t s b u mth => (.http t s b u mth, some s)
                | .cancellation => (.cancellation, none)
                | .timeout => (.timeout, none)
                | e2 =>
                    (.network (jsOrString (some e2.errMessage) "Unknown network error")
                       requestConfig.url requestConfig.method, none)
              updateState st (.error finalPair.2 finalPair.1)
            else
              let delay :=
                (match requestConfig.retryDelay with
                 | some d => if d != 0 then d else 1000
                 | none => 1000) * 2 ^ (attempt - 1)
              let st := addEvent st (.sleep delay)
              runRetryLoop ctx requestConfig now rest (attempt + 1) st

/-- `executeRequestWithRetry` of `src/request.ts`: for a non-refetch GET
with no `forceRefresh` it consults the TTL cache first and, on a hit,
publishes `success` with the cached `{status, data}` and stops; otherwise
it enters the retry loop. -/
def executeRequestWithRetry (ctx : ServiceContext)
    (requestConfig : RequestConfig) (now : Int) (isRefetch : Bool)
    (outcomes : List AttemptOutcome) (retryAttempt : Nat) (st : EngineSt) :
    EngineSt :=
  if st.destroyed then st
  else if !isRefetch && isGetMethod requestConfig && !requestConfig.forceRefresh then
    match CacheStore.get st.cache requestConfig now with
    | (cache2, some cached) =>
        updateState { st with cache := cache2 } (.success cached.status cached.data)
    | (cache2, none) =>
        runRetryLoop ctx requestConfig now outcomes retryAttempt
          { st with cache := cache2 }
  else runRetryLoop ctx requestConfig now outcomes retryAttempt st

/-- `refetch`: unconditionally invalidates the cache entry of the store
config, then runs `executeRequestWithRetry(true)`. -/
def refetch (ctx : ServiceContext) (requestConfig : RequestConfig) (now : Int)
    (outcomes : List AttemptOutcome) (st : EngineSt) : EngineSt :=
  let st := { st with cache := CacheStore.invalidateConfig st.cache requestConfig }
  executeRequestWithRetry ctx requestConfig now true outcomes 1 st

/-- `cancel`: aborts the active controller when one exists; nothing else. -/
def cancelOp (st : EngineSt) : EngineSt :=
  if st.hasController then { st with ctrlAborted := true } else st

/-- `destroy`: marks the store destroyed, then cancels (the timeout-timer
cleanup has no footprint in this state). -/
def destroyOp (st : EngineSt) : EngineSt :=
  cancelOp { st with destroyed := true }

/-!
Interleaving model of attempt supersession.

`executeRequestAttempt` is a coroutine: its body runs in atomic blocks
separated by its `await` points (`await applyInterceptors`, `await fetch`,
and — inside `handleResponse` — `await parseResponse`).  Between two awaits
no other attempt can run (single-threaded cooperative scheduling), but at
every await another attempt on the same store may run to any point.  The
`Conc` namespace models one store with several in-flight `refetch()`
invocations (the refetch path bypasses the cache read; the responses are
`ok` 200 with no ttl and no retries configured, so the cache and the retry
branch play no role) and an explicit scheduler, with each atomic block of
the source mapped to one step:
- `notStarted → awaitingInterceptors`: the synchronous prefix of
  `executeRequestWithRetry` + `executeRequestAttempt` — abort the previous
  active controller, allocate a fresh `requestExecutionId` and controller,
  publish `loading`; suspends at `await applyInterceptors`.
- `awaitingInterceptors → awaitingFetch`: interceptors resolved; the block
  builds the URL and calls `fetch`; suspends at `await fetch`.
- `awaitingFetch → awaitingParse`: `fetch` resolved; the block clears the
  timer, checks `abortSignal.aborted` (line 240), checks
  `executionId !== requestExecutionId` (line 244) and enters
  `handleResponse`, which starts the body parse; suspends at
  `await parseResponse` (line 103).
- `awaitingParse → finished`: the parse resolved; `handleResponse`
  publishes the terminal state — the source performs no further staleness
  check before this commit.
-/

namespace Conc

/-- The await points of one attempt coroutine. -/
inductive Phase
  | notStarted
  | awaitingInterceptors
  | awaitingFetch
  | awaitingParse
  | finished
deriving DecidableEq, Repr

/-- One in-flight attempt: its allocated execution id, the fixed `ok` 200
response it will receive, the aborted flag of its own `AbortController`,
and its current phase. -/
structure Proc where
  execId : Nat := 0
  respStatus : Nat
  respData : JSValue
  ctrlAborted : Bool := false
  phase : Phase := .notStarted
deriving DecidableEq, Repr

/-- The store-level shared fields the attempts race on. -/
structure Shared where
  published : FetchState := .idle
  requestExecutionId : Nat := 0
  counter : Nat := 0
  destroyed : Bool := false
  activeIdx : Option Nat := none
deriving DecidableEq, Repr

/-- The whole system: shared store fields plus the attempt coroutines. -/
structure Sys where
  shared : Shared
  procs : List Proc
deriving DecidableEq, Repr

/-- `updateState` of the store, as seen by every attempt. -/
def publish (sh : Shared) (s : FetchState) : Shared :=
  if sh.destroyed then sh else { sh with published := s }

/-- Applies a function to the process at the index. -/
def setProc : List Proc → Nat → (Proc → Proc) → List Proc
  | [], _, _ => []
  | p :: ps, 0, f => f p :: ps
  | p :: ps, n + 1, f => p :: setProc ps n f

/-- `activeRequestController.abort()` aborts the controller of the
currently-active attempt, if any. -/
def abortActive (ps : List Proc) : Option Nat → List Proc
  | none => ps
  | some j => setProc ps j (fun q => { q with ctrlAborted := true })

/-- Runs the next atomic block of process `i` (one await-to-await segment
of `executeRequestAttempt`, see the section comment). -/
def stepProc (sys : Sys) (i : Nat) : Sys :=
  match sys.procs.get? i with
  | none => sys
  | some p =>
      match p.phase with
      | .notStarted =>
          if sys.shared.destroyed then
            { sys with
              procs := setProc sys.procs i (fun q => { q with phase := .finished }) }
          else
            let procs := abortActive sys.procs sys.shared.activeIdx
            let c := sys.shared.counter + 1
            let sh := { sys.shared with
                        counter := c, requestExecutionId := c, activeIdx := some i }
            let sh := publish sh (.loading (previousDataOf sh.published))
            { shared := sh,
              procs := setProc procs i (fun q =>
                { q with execId := c, ctrlAborted := false,
                         phase := .awaitingInterceptors }) }
      | .awaitingInterceptors =>
          { sys with
            procs := setProc sys.procs i (fun q => { q with phase := .awaitingFetch }) }
      | .awaitingFetch =>
          if p.ctrlAborted then
            { shared := publish sys.shared (.error none .cancellation),
              procs := setProc sys.procs i (fun q => { q with phase := .finished }) }
          else if p.execId ≠ sys.shared.requestExecutionId ∨ sys.shared.destroyed then
            { sys with
              procs := setProc sys.procs i (fun q => { q with phase := .finished }) }
          else
            { sys with
              procs := setProc sys.procs i (fun q => { q with phase := .awaitingParse }) }
      | .awaitingParse =>
          { shared := publish sys.shared (.success p.respStatus p.respData),
            procs := setProc sys.procs i (fun q => { q with phase := .finished }) }
      | .finished => sys

/-- Runs a schedule: at each step the named process runs its next atomic
block. -/
def runSched (sys : Sys) : List Nat → Sys
  | [] => sys
  | i :: rest => runSched (stepProc sys i) rest

end Conc

/-- Number of network calls recorded in a trace. -/
def countFetchCalls (events : List REvent) : Nat :=
  events.countP (fun e => match e with | .fetchCall _ => true | _ => false)

/-- Number of backoff sleeps recorded in a trace. -/
def countSleeps (events : List REvent) : Nat :=
  events.countP (fun e => match e with | .sleep _ => true | _ => false)

/-! Concrete fixtures used by witnesses and counterexamples. -/

/-- A service context with the example base URL and no interceptors. -/
def ctx0 : ServiceContext :=
  { baseURL := "https://api.example.com", interceptors := {} }

/-- A JSON response body that parses to an opaque payload. -/
def raw200 : RawResponse :=
  { contentType := "application/json", jsonR := .ok (.val "payload"),
    textR := .ok "body", blobR := .ok (.val "blobv"),
    arrayBufferR := .ok (.val "bufv"), formDataR := .ok (.val "formv") }

/-- A successful 200 response. -/
def resp200 : HResp := { ok := true, status := 200, statusText := "OK", raw := raw200 }

/-- A 500 response (`ok` false). -/
def resp500 : HResp :=
  { ok := false, status := 500, statusText := "Internal Server Error", raw := raw200 }

/-- A 400 response (`ok` false). -/
def resp400 : HResp :=
  { ok := false, status := 400, statusText := "Bad Request", raw := raw200 }

/-- A 204 response with `ok` true and a declared JSON content type. -/
def resp204ok : HResp :=
  { ok := true, status := 204, statusText := "No Content",
    raw := { raw200 with jsonR := .error () } }

/-- A POST description. -/
def cfgPost : RequestConfig := { url := "/users", method := some "POST" }

/-- A GET description with ttl 5000. -/
def cfgGet5000 : RequestConfig :=
  { url := "/users", method := some "GET", ttl := some 5000 }

/-- A destroyed store holding a cached entry and a committed error state. -/
def destroyedStoreWithEntry : EngineSt :=
  { destroyed := true,
    state := .error none .cancellation,
    cache := mapInsert emptyCacheMap "GET:/users" ⟨.val "old", 200, 9999⟩ }

/-- A live store holding a cached entry for `GET:/users`. -/
def storeWithEntry : EngineSt :=
  { state := .success 200 (.val "old"),
    cache := mapInsert emptyCacheMap "GET:/users" ⟨.val "old", 200, 9999⟩ }

-- ----------------------------------------------------------------------
-- C7
-- ----------------------------------------------------------------------

/-- C7: for every request description with `ttl <= 0` or a non-GET method,
`CacheStore.set` leaves the cache map unchanged, regardless of the data and
status being stored — no cache entry is ever created for such descriptions. -/
theorem c7_no_cache_write_for_non_get_or_nonpositive_ttl
    (m : CacheMap) (config : RequestConfig) (data : JSValue) (status : Nat)
    (ttl now : Int) (h : isGetMethod config = false ∨ ttl ≤ 0) :
    CacheStore.set m config data status ttl now = m := by
  unfold CacheStore.set
  rcases h with h | h
  · simp [h]
  · simp [h]

/-- C7 witness: a POST description with positive ttl writes nothing. -/
theorem c7_no_cache_write_witness :
    (isGetMethod cfgPost = false ∨ (5000 : Int) ≤ 0) ∧
    CacheStore.set emptyCacheMap cfgPost (.val "d") 200 5000 7 = emptyCacheMap :=
  ⟨Or.inl (by decide),
   c7_no_cache_write_for_non_get_or_nonpositive_ttl emptyCacheMap cfgPost
     (.val "d") 200 5000 7 (Or.inl (by decide))⟩

-- ----------------------------------------------------------------------
-- C9
-- ----------------------------------------------------------------------

/-- C9: calling `refetch()` on a destroyed store still deletes the TTL-cache
entry for the store config (the shared cache is mutated), while the
published state signal and the event trace stay unchanged; the call returns
normally (the embedding is a total function, mirroring that no exception is
thrown). -/
theorem c9_refetch_after_destroy_mutates_cache_only
    (ctx : ServiceContext) (requestConfig : RequestConfig) (now : Int)
    (outcomes : List AttemptOutcome) (st : EngineSt)
    (hDead : st.destroyed = true) :
    (refetch ctx requestConfig now outcomes st).cache
      = CacheStore.invalidateConfig st.cache requestConfig ∧
    (refetch ctx requestConfig now outcomes st).state = st.state ∧
    (refetch ctx requestConfig now outcomes st).events = st.events := by
  simp [refetch, executeRequestWithRetry, hDead]

/-- C9 witness: a destroyed store holding a cached entry; refetch deletes the
entry and leaves the published error state alone. -/
theorem c9_refetch_after_destroy_witness :
    (destroyedStoreWithEntry.destroyed = true) ∧
    (refetch ctx0 cfgGet5000 3000 [] destroyedStoreWithEntry).state
      = destroyedStoreWithEntry.state ∧
    (refetch ctx0 cfgGet5000 3000 [] destroyedStoreWithEntry).cache
      = CacheStore.invalidateConfig destroyedStoreWithEntry.cache cfgGet5000 :=
  ⟨rfl,
   (c9_refetch_after_destroy_mutates_cache_only ctx0 cfgGet5000 3000 []
      destroyedStoreWithEntry rfl).2.1,
   (c9_refetch_after_destroy_mutates_cache_only ctx0 cfgGet5000 3000 []
      destroyedStoreWithEntry rfl).1⟩

-- ----------------------------------------------------------------------
-- C8
-- ----------------------------------------------------------------------

/-- A pipeline over Nat configs: slot 0 already ejected, slot 1 live. -/
def mgrNat : InterceptorManager Nat :=
  { handlers := [none, some (fun n => n + 1)] }

/-- Folding over the handler slots, skipping nulled ones, is the fold over
the live handlers in order. -/
theorem foldl_handlers_eq_foldl_filterMap {γ : Type}
    (hs : List (Option (γ → γ))) (config : γ) :
    hs.foldl
        (fun currentConfig h =>
          match h with
          | none => currentConfig
          | some handler => handler currentConfig)
        config
      = (hs.filterMap id).foldl (fun c f => f c) config := by
  induction hs generalizing config with
  | nil => rfl
  | cons h t ih =>
      cases h with
      | none => simpa [List.filterMap_cons] using ih config
      | some f => simpa [List.filterMap_cons] using ih (f config)

/-- Setting a slot to the value it already holds changes nothing. -/
theorem set_get?_self {α : Type} (l : List α) (n : Nat) (a : α)
    (h : l.get? n = some a) : l.set n a = l := by
  induction l generalizing n with
  | nil => rfl
  | cons x xs ih =>
      cases n with
      | zero =>
          simp only [List.get?] at h
          simp [List.set, Option.some.injEq] at h ⊢
          exact h.symm
      | succ k =>
          simp only [List.get?] at h
          simp [List.set, ih k h]

/-- C8: after any sequence of `use` (register) and `eject` (remove)
operations, `applyInterceptors` composes exactly the currently-live steps
sequentially in registration order, each receiving the previous step
output; ejecting an unknown id is a no-op, ejecting an already-removed id
is a no-op, ejecting never shifts any other slot, and `use` always returns
a fresh id (the current length) without disturbing existing slots — so ids
are never reused or shifted. -/
theorem c8_interceptor_pipeline_contract (γ : Type) :
    (∀ (m : InterceptorManager γ) (config : γ),
        m.applyInterceptors config
          = m.liveSteps.foldl (fun c f => f c) config) ∧
    (∀ (m : InterceptorManager γ) (id : Int),
        ¬(0 ≤ id ∧ id < (m.handlers.length : Int)) → m.eject id = m) ∧
    (∀ (m : InterceptorManager γ) (id : Int),
        m.handlers.get? id.toNat = some none → m.eject id = m) ∧
    (∀ (m : InterceptorManager γ) (id : Int) (j : Nat),
        (j : Int) ≠ id →
        (m.eject id).handlers.get? j = m.handlers.get? j) ∧
    (∀ (m : InterceptorManager γ) (f : γ → γ),
        (m.use f).2 = (m.handlers.length : Int) ∧
        (m.use f).1.handlers.get? m.handlers.length = some (some f) ∧
        ∀ j, j < m.handlers.length →
          (m.use f).1.handlers.get? j = m.handlers.get? j) := by
  refine ⟨?_, ?_, ?_, ?_, ?_⟩
  · intro m config
    exact foldl_handlers_eq_foldl_filterMap m.handlers config
  · intro m id h
    simp [InterceptorManager.eject, h]
  · intro m id h
    unfold InterceptorManager.eject
    split
    · exact congrArg InterceptorManager.mk (set_get?_self _ _ _ h)
    · rfl
  · intro m id j hne
    unfold InterceptorManager.eject
    split
    · next hr =>
        have : id.toNat ≠ j := by
          intro hEq
          apply hne
          rw [← hEq, Int.toNat_of_nonneg hr.1]
        exact List.get?_set_ne none m.handlers this
    · rfl
  · intro m f
    refine ⟨rfl, ?_, ?_⟩
    · exact List.get?_concat_length m.handlers (some f)
    · intro j hj
      exact List.get?_append hj

/-- C8 witness: concrete pipeline over Nat configs — register two steps,
eject the first; apply runs only the live step; ejecting id 5 (unknown) and
ejecting id 0 again (already removed) are no-ops; slot 1 is untouched; the
next registered id is 2. -/
theorem c8_interceptor_pipeline_witness :
    (mgrNat.applyInterceptors 10
        = mgrNat.liveSteps.foldl (fun c f => f c) 10) ∧
    (mgrNat.eject 5 = mgrNat) ∧
    (mgrNat.eject 0 = mgrNat) ∧
    ((mgrNat.eject 0).handlers.get? 1 = mgrNat.handlers.get? 1) ∧
    ((mgrNat.use (fun n => n * 2)).2 = 2) :=
  ⟨(c8_interceptor_pipeline_contract Nat).1 mgrNat 10,
   (c8_interceptor_pipeline_contract Nat).2.1 mgrNat 5 (by decide),
   (c8_interceptor_pipeline_contract Nat).2.2.1 mgrNat 0 rfl,
   (c8_interceptor_pipeline_contract Nat).2.2.2.1 mgrNat 0 1 (by decide),
   ((c8_interceptor_pipeline_contract Nat).2.2.2.2 mgrNat (fun n => n * 2)).1⟩

-- ----------------------------------------------------------------------
-- C5
-- ----------------------------------------------------------------------

/-- Status 204 is always in the combined empty-status set. -/
theorem emptyStatus_204 (config : RequestConfig) :
    isExplicitlyEmptyStatus config 204 = true := by
  simp [isExplicitlyEmptyStatus]

/-- A 204 response body-parses to `null` before any body channel is read. -/
theorem parseResponse_204 (raw : RawResponse) (t : Option ResponseType) :
    parseResponse 204 raw t = .ok .null := by
  simp [parseResponse]

/-- C5: a response with status 204 always yields
`{type:'empty', status:204, data:undefined}` and deletes any existing cache
entry for the config fingerprint — both when `ok` is true (even when a
body-less JSON content type is declared: the 204 early-return precedes any
body read, so parsing cannot fail) and when `ok` is false. -/
theorem c5_status204_empty_and_cache_invalidated
    (requestConfig finalConfig : RequestConfig) (now : Int) (resp : HResp)
    (finalUrl : String) (st : EngineSt)
    (h204 : resp.status = 204) (hLive : st.destroyed = false) :
    ∃ st2, handleResponse requestConfig finalConfig now resp finalUrl st
        = .ok st2 ∧
      st2.state = .empty 204 ∧
      mapLookup st2.cache (generateCacheKey finalConfig) = none := by
  unfold handleResponse
  rw [h204]
  cases hok : resp.ok with
  | false =>
      simp [emptyStatus_204, updateState, hLive, CacheStore.invalidateConfig,
        mapLookup, mapErase]
  | true =>
      by_cases hv : finalConfig.validateResponse && finalConfig.hasResponseSchema
        <;> simp [parseResponse_204, emptyStatus_204, hv, updateState, addEvent,
              hLive, CacheStore.invalidateConfig, mapLookup, mapErase]

/-- C5 witness: a 204 with `ok` true and JSON content type whose `json()`
rejects, against a store holding a cache entry for the fingerprint. -/
theorem c5_status204_witness :
    (resp204ok.status = 204) ∧
    ∃ st2, handleResponse cfgGet5000 cfgGet5000 1000 resp204ok "u" storeWithEntry
        = .ok st2 ∧
      st2.state = .empty 204 ∧
      mapLookup st2.cache (generateCacheKey cfgGet5000) = none :=
  ⟨rfl, c5_status204_empty_and_cache_invalidated cfgGet5000 cfgGet5000 1000
     resp204ok "u" storeWithEntry rfl rfl⟩

-- ----------------------------------------------------------------------
-- C4
-- ----------------------------------------------------------------------

/-- A stale attempt suspended at its post-fetch block. -/
def staleProc : Conc.Proc :=
  { execId := 1, respStatus := 200, respData := .val "old",
    phase := .awaitingFetch }

/-- A store whose newest execution id (2) has already superseded
`staleProc`. -/
def staleSys : Conc.Sys :=
  { shared := { published := .loading none, requestExecutionId := 2,
                counter := 2, activeIdx := some 1 },
    procs := [staleProc] }

/-- The attempt that will receive the stale payload. -/
def procOld : Conc.Proc := { respStatus := 200, respData := .val "old" }

/-- The superseding attempt that will receive the fresh payload. -/
def procNew : Conc.Proc := { respStatus := 200, respData := .val "new" }

/-- Two refetch invocations on one fresh store. -/
def raceSys0 : Conc.Sys := { shared := {}, procs := [procOld, procNew] }

/-- The schedule: attempt 0 runs up to (and past) its staleness check and
suspends in body parsing; attempt 1 then starts, supersedes it, and runs to
commit.  The stale attempt 0 has not yet run its parse-resumption block. -/
def raceSched : List Nat := [0, 0, 0, 1, 1, 1, 1]

/-- The system after the seven scheduled blocks. -/
def raceSys7 : Conc.Sys := Conc.runSched raceSys0 raceSched

/-- C4 counterexample: after `raceSched`, the newer attempt (execution id 2)
has committed `success "new"` and the store newest execution id is 2; the
suspended stale attempt 0 (execution id 1, past its only staleness check,
resumed from body parsing) then runs its commit block and publishes
`success "old"` — a terminal state committed while the attempt id is *not*
the store newest, overwriting the newer attempt committed state.  This
refutes the claim that a terminal state is committed only if the committing
attempt id is still the newest at the moment of commit. -/
theorem c4_counterexample_stale_overwrite :
    raceSys7.shared.published = .success 200 (.val "new") ∧
    raceSys7.shared.requestExecutionId = 2 ∧
    (raceSys7.procs.get? 0).map Conc.Proc.execId = some 1 ∧
    (raceSys7.procs.get? 0).map Conc.Proc.phase = some .awaitingParse ∧
    (Conc.stepProc raceSys7 0).shared.requestExecutionId = 2 ∧
    (Conc.stepProc raceSys7 0).shared.published = .success 200 (.val "old") := by
  decide

/-- Updating slot `n` and reading slot `n` back. -/
theorem setProc_get?_self (ps : List Conc.Proc) (n : Nat) (f : Conc.Proc → Conc.Proc) :
    (Conc.setProc ps n f)[n]? = ps[n]?.map f := by
  induction ps generalizing n with
  | nil => cases n <;> rfl
  | cons p rest ih => cases n with
      | zero => simp [Conc.setProc]
      | succ k => simpa [Conc.setProc] using ih k

/-- C4 amended: the staleness guard runs once, when the fetch resolves and
before the body parse — an attempt whose staleness is visible at that guard
is discarded without touching the shared state, and a finished attempt
never acts again.  (The counterexample shows the guard is not re-checked at
the commit itself, so an attempt superseded *during* body parsing still
overwrites.) -/
theorem c4_amended_guard_discards_visibly_stale :
    (∀ (sys : Conc.Sys) (i : Nat) (p : Conc.Proc),
        sys.procs.get? i = some p → p.phase = .awaitingFetch →
        p.ctrlAborted = false → p.execId ≠ sys.shared.requestExecutionId →
        (Conc.stepProc sys i).shared = sys.shared ∧
        ((Conc.stepProc sys i).procs.get? i).map Conc.Proc.phase
          = some .finished) ∧
    (∀ (sys : Conc.Sys) (i : Nat) (p : Conc.Proc),
        sys.procs.get? i = some p → p.phase = .finished →
        Conc.stepProc sys i = sys) := by
  constructor
  · intro sys i p hget hphase hctrl hne
    obtain ⟨eid, rs, rd, ca, ph⟩ := p
    dsimp only at hphase hctrl hne
    subst hphase
    subst hctrl
    simp only [List.get?_eq_getElem?] at hget
    simp [Conc.stepProc, hget, hne, setProc_get?_self]
  · intro sys i p hget hphase
    obtain ⟨eid, rs, rd, ca, ph⟩ := p
    dsimp only at hphase
    subst hphase
    simp only [List.get?_eq_getElem?] at hget
    simp [Conc.stepProc, hget]

/-- C4 amended witness: a store whose newest execution id is 2 discards the
post-fetch resumption of the stale attempt (execution id 1) without
touching the shared state. -/
theorem c4_amended_witness :
    (staleSys.procs.get? 0 = some staleProc) ∧
    (Conc.stepProc staleSys 0).shared = staleSys.shared ∧
    ((Conc.stepProc staleSys 0).procs.get? 0).map Conc.Proc.phase
      = some .finished :=
  ⟨rfl,
   (c4_amended_guard_discards_visibly_stale.1 staleSys 0 staleProc rfl rfl rfl
      (by decide)).1,
   (c4_amended_guard_discards_visibly_stale.1 staleSys 0 staleProc rfl rfl rfl
      (by decide)).2⟩

-- ----------------------------------------------------------------------
-- C2
-- ----------------------------------------------------------------------

/-- A GET description with `retries: 2` and a ttl. -/
def cfgRetries2 : RequestConfig :=
  { url := "/users", method := some "GET", ttl := some 5000, retries := some 2 }

/-- A `request()` run against `cfgRetries2` where three attempts worth of
HTTP 500 responses stand ready. -/
def run500 : EngineSt :=
  executeRequestWithRetry ctx0 cfgRetries2 1000 false
    [.fetchResolve resp500 false, .fetchResolve resp500 false,
     .fetchResolve resp500 false] 1 initEngineSt

/-- C2 counterexample: with `retries = 2` and every attempt set to receive
HTTP 500, the store performs exactly one network call — not three — sleeps
through no backoff, and commits the `HttpError` 500 error state at once:
`handleResponse` commits response-status errors in place and never throws
them, so the retry loop never sees an `HttpError`. -/
theorem c2_counterexample_500_never_retried :
    countFetchCalls run500.events = 1 ∧
    countFetchCalls run500.events ≠ 3 ∧
    countSleeps run500.events = 0 ∧
    run500.state = .error (some 500)
      (.http "Internal Server Error" 500 none
         (some "https://api.example.com/users") (some "GET")) := by
  refine ⟨by decide, by decide, by decide, by decide⟩

/-- C2 amended: a non-`ok` HTTP response whose status is not in the
empty-status set of the store template config (the set the
`isExplicitlyEmptyStatus` closure reads, request.ts:45-50) — e.g. 500 or
400 — commits the `HttpError` error state
immediately with zero retries, whatever `retries` is configured: the
response-status error is committed inside `handleResponse` and never
thrown, so the retry predicate is never consulted for it.  The default
retry predicate itself accepts exactly `NetworkError`, `TimeoutError`, and
— nominally, the case being unreachable from a response — `HttpError` with
status `>= 500`. -/
theorem c2_amended_http_errors_commit_without_retry
    (ctx : ServiceContext) (cfg : RequestConfig) (now : Int) (resp : HResp)
    (rest : List AttemptOutcome) (attempt : Nat) (st : EngineSt)
    (hLive : st.destroyed = false) (hOk : resp.ok = false)
    (hNE : isExplicitlyEmptyStatus cfg resp.status = false) :
    ((runRetryLoop ctx cfg now (.fetchResolve resp false :: rest) attempt st).state
        = .error (some resp.status)
            (.http resp.statusText resp.status
               (match resp.errJsonR with | .ok v => some v | .error _ => none)
               (some (buildRequestUrl ctx
                  (ctx.interceptors.applyInterceptors cfg).url))
               (ctx.interceptors.applyInterceptors cfg).method)) ∧
    ((runRetryLoop ctx cfg now (.fetchResolve resp false :: rest) attempt st).events
        = st.events ++ [.interceptorPass,
            .fetchCall (buildRequestUrl ctx
              (ctx.interceptors.applyInterceptors cfg).url)]) ∧
    (∀ e : JsError, defaultShouldRetry e = true ↔
        ((∃ m u mm, e = .network m u mm) ∨ e = .timeout ∨
         (∃ t s b u mm, e = .http t s b u mm ∧ 500 ≤ s))) := by
  refine ⟨?_, ?_, ?_⟩
  · cases hc : st.hasController <;>
      simp [runRetryLoop, executeRequestAttempt, handleResponse, updateState,
        addEvent, CacheStore.invalidateConfig, hc, hLive, hOk, hNE]
  · cases hc : st.hasController <;>
      simp [runRetryLoop, executeRequestAttempt, handleResponse, updateState,
        addEvent, CacheStore.invalidateConfig, hc, hLive, hOk, hNE]
  · intro e
    cases e <;> simp [defaultShouldRetry]
    case http t s b u mm =>
      exact ⟨fun h => ⟨t, s, ⟨rfl, rfl⟩, h⟩,
             fun ⟨_, _, ⟨_, hs⟩, h⟩ => hs ▸ h⟩

/-- C2 amended witness: a 400 response with `retries = 2` commits the
`HttpError` 400 state after a single network call. -/
theorem c2_amended_http_witness :
    (resp400.ok = false) ∧
    ((runRetryLoop ctx0 cfgRetries2 1000 [.fetchResolve resp400 false] 1
        initEngineSt).state
      = .error (some 400)
          (.http "Bad Request" 400 none
             (some "https://api.example.com/users") (some "GET"))) :=
  ⟨rfl,
   (c2_amended_http_errors_commit_without_retry ctx0 cfgRetries2 1000 resp400
      [] 1 initEngineSt rfl rfl (by decide)).1⟩

-- ----------------------------------------------------------------------
-- C6
-- ----------------------------------------------------------------------

/-- A 200 response with a text content type whose body read rejects. -/
def respBadBody : HResp :=
  { ok := true, status := 200, statusText := "OK",
    raw := { contentType := "text/plain", jsonR := .ok (.val "x"),
             textR := .error (), blobR := .ok (.val "b"),
             arrayBufferR := .ok (.val "a"), formDataR := .ok (.val "f") } }

/-- C6: a 2xx (`ok`) response whose body fails to parse — per the explicit
`responseType` or the content-type sniffing inside `parseResponse` —
commits an error state carrying a `ParsingError` with no HTTP status, after
exactly one network call and no backoff, for every configured retry count
(under the default predicate, i.e. no custom `retryOn`): the default retry
predicate rejects `ParsingError` outright. -/
theorem c6_parsing_error_commits_and_never_retried
    (ctx : ServiceContext) (cfg : RequestConfig) (now : Int) (resp : HResp)
    (rest : List AttemptOutcome) (attempt : Nat) (st : EngineSt)
    (hLive : st.destroyed = false) (hRetryOn : cfg.retryOn = none)
    (hOk : resp.ok = true)
    (hParse : parseResponse resp.status resp.raw
        (ctx.interceptors.applyInterceptors cfg).responseType = .error ()) :
    ((runRetryLoop ctx cfg now (.fetchResolve resp false :: rest) attempt st).state
        = .error none (.parsing "Failed to parse successful response body")) ∧
    ((runRetryLoop ctx cfg now (.fetchResolve resp false :: rest) attempt st).events
        = st.events ++ [.interceptorPass,
            .fetchCall (buildRequestUrl ctx
              (ctx.interceptors.applyInterceptors cfg).url)]) ∧
    defaultShouldRetry (.parsing "Failed to parse successful response body")
      = false := by
  refine ⟨?_, ?_, rfl⟩ <;>
    cases hc : st.hasController <;>
      simp [runRetryLoop, executeRequestAttempt, handleResponse, updateState,
        addEvent, hc, hLive, hOk, hParse, hRetryOn, defaultShouldRetry]

/-- C6 witness: a text response whose body read rejects, with `retries = 2`
configured, commits the `ParsingError` state after one network call. -/
theorem c6_parsing_error_witness :
    (respBadBody.ok = true) ∧
    (parseResponse respBadBody.status respBadBody.raw
        (ctx0.interceptors.applyInterceptors cfgRetries2).responseType
      = .error ()) ∧
    ((runRetryLoop ctx0 cfgRetries2 1000 [.fetchResolve respBadBody false] 1
        initEngineSt).state
      = .error none (.parsing "Failed to parse successful response body")) :=
  ⟨rfl, rfl,
   (c6_parsing_error_commits_and_never_retried ctx0 cfgRetries2 1000
      respBadBody [] 1 initEngineSt rfl rfl rfl rfl).1⟩

-- ----------------------------------------------------------------------
-- C3
-- ----------------------------------------------------------------------

/-- A GET description with no timeout and no retries. -/
def cfgPlain : RequestConfig := { url := "/users", method := some "GET" }

/-- A store waiting out a retry backoff: the failed first attempt left a
settled controller behind and the loop has slept once. -/
def midBackoffStore : EngineSt :=
  { state := .loading none,
    events := [.interceptorPass, .fetchCall "https://api.example.com/users",
               .sleep 1000],
    globalCounter := 1, requestExecutionId := 1, hasController := true }

/-- A GET description with a timeout and no retries. -/
def cfgTimeout50 : RequestConfig :=
  { url := "/users", method := some "GET", timeout := some 50 }

/-- A `request()` whose only outstanding attempt is aborted by `cancel()`
(no newer attempt started): the platform `fetch` rejects with the
`AbortError` DOMException. -/
def runCancelled : EngineSt :=
  executeRequestWithRetry ctx0 cfgPlain 1000 false [.fetchReject .domAbort] 1
    initEngineSt

/-- C3 counterexample: calling `cancel()` on a store with an outstanding
attempt and no newer attempt started does *not* yield
`{type:'error', error.name:'CancellationError'}` — the `AbortError`
rejection is swallowed by the retry loop (`error instanceof DOMException`,
request.ts:304) and the store remains in `loading`, a non-terminal state. -/
theorem c3_counterexample_cancel_leaves_loading :
    runCancelled.state = .loading none ∧
    ∀ stat err, runCancelled.state ≠ FetchState.error stat err := by
  have h : runCancelled.state = .loading none := by decide
  exact ⟨h, fun stat err hc => by rw [h] at hc; exact FetchState.noConfusion hc⟩

/-- C3 amended: an aborted in-flight attempt is classified by the
*configuration*, not by the cause of the abort.  (1) When the fetch rejects
with `AbortError` and the final config has a truthy `timeout`, the store
commits `TimeoutError` — whether the abort came from the timer or from
`cancel()`/supersession (the code only tests `error.name === 'AbortError'
&& finalConfig.timeout`, request.ts:252).  (2) When the final config has no
truthy `timeout`, the `AbortError` is swallowed and nothing is committed:
the state remains `loading`.  (3) `CancellationError` is committed exactly
when the fetch *resolves* while the abort signal is already set
(request.ts:240), again irrespective of what caused the abort. -/
theorem c3_amended_abort_classified_by_config :
    (∀ (ctx : ServiceContext) (cfg : RequestConfig) (now : Int)
        (rest : List AttemptOutcome) (attempt : Nat) (st : EngineSt),
        st.destroyed = false →
        jsTruthyNat (ctx.interceptors.applyInterceptors cfg).timeout = true →
        cfg.retries = none →
        (runRetryLoop ctx cfg now (.fetchReject .domAbort :: rest) attempt st).state
          = .error none .timeout) ∧
    (∀ (ctx : ServiceContext) (cfg : RequestConfig) (now : Int)
        (rest : List AttemptOutcome) (attempt : Nat) (st : EngineSt),
        st.destroyed = false →
        jsTruthyNat (ctx.interceptors.applyInterceptors cfg).timeout = false →
        (runRetryLoop ctx cfg now (.fetchReject .domAbort :: rest) attempt st).state
          = .loading (previousDataOf st.state)) ∧
    (∀ (ctx : ServiceContext) (cfg : RequestConfig) (now : Int) (resp : HResp)
        (rest : List AttemptOutcome) (attempt : Nat) (st : EngineSt),
        st.destroyed = false → cfg.retryOn = none →
        (runRetryLoop ctx cfg now (.fetchResolve resp true :: rest) attempt st).state
          = .error none .cancellation) := by
  refine ⟨?_, ?_, ?_⟩
  · intro ctx cfg now rest attempt st hLive hT hR
    cases hc : st.hasController <;>
      simp [runRetryLoop, executeRequestAttempt, updateState, addEvent,
        JsError.errName, retriesTruthy, hc, hLive, hT, hR]
  · intro ctx cfg now rest attempt st hLive hT
    cases hc : st.hasController <;>
      simp [runRetryLoop, executeRequestAttempt, updateState, addEvent,
        JsError.errName, hc, hLive, hT]
  · intro ctx cfg now resp rest attempt st hLive hRetryOn
    cases hc : st.hasController <;>
      simp [runRetryLoop, executeRequestAttempt, updateState, addEvent,
        defaultShouldRetry, hc, hLive, hRetryOn]

/-- C3 amended witness: the same `AbortError` rejection commits
`TimeoutError` under `cfgTimeout50`, commits nothing under `cfgPlain`
(state stays `loading`), and a fetch resolving under a set abort signal
commits `CancellationError`. -/
theorem c3_amended_witness :
    ((runRetryLoop ctx0 cfgTimeout50 1000 [.fetchReject .domAbort] 1
        initEngineSt).state = .error none .timeout) ∧
    ((runRetryLoop ctx0 cfgPlain 1000 [.fetchReject .domAbort] 1
        initEngineSt).state = .loading (previousDataOf initEngineSt.state)) ∧
    ((runRetryLoop ctx0 cfgPlain 1000 [.fetchResolve resp200 true] 1
        initEngineSt).state = .error none .cancellation) :=
  ⟨c3_amended_abort_classified_by_config.1 ctx0 cfgTimeout50 1000 [] 1
     initEngineSt rfl rfl rfl,
   c3_amended_abort_classified_by_config.2.1 ctx0 cfgPlain 1000 [] 1
     initEngineSt rfl rfl,
   c3_amended_abort_classified_by_config.2.2 ctx0 cfgPlain 1000 resp200 [] 1
     initEngineSt rfl rfl⟩

-- ----------------------------------------------------------------------
-- C10
-- ----------------------------------------------------------------------

/-- Pushing `Except.ok` out of a conditional. -/
theorem ok_ite {ε α : Type} (c : Prop) [Decidable c] (a b : α) :
    (if c then Except.ok a else Except.ok b)
      = (Except.ok (ε := ε) (if c then a else b)) := by
  split <;> rfl

/-- The published state of a conditionally-built store. -/
theorem state_ite (c : Prop) [Decidable c] (a b : EngineSt) :
    (if c then a else b).state = if c then a.state else b.state := by
  split <;> rfl

/-- The event trace of a conditionally-built store. -/
theorem events_ite (c : Prop) [Decidable c] (a b : EngineSt) :
    (if c then a else b).events = if c then a.events else b.events := by
  split <;> rfl

/-- C10: `cancel()` issued while the retry loop is waiting out a backoff
delay does not prevent the pending retry.  (1) `cancel()` only aborts the
already-settled controller of the failed attempt, and the next loop
iteration immediately aborts it again and replaces it with a fresh one, so
the continuation is identical with or without the cancel.  (2) The next
iteration does issue the network attempt: one more `fetchCall` happens and
the response is processed normally.  (3) Only `destroy()` stops the pending
retry: after `destroy()` the next iteration performs no network call and
publishes nothing. -/
theorem c10_cancel_does_not_prevent_pending_retry :
    (∀ (ctx : ServiceContext) (cfg : RequestConfig) (now : Int)
        (out : AttemptOutcome) (rest : List AttemptOutcome) (attempt : Nat)
        (st : EngineSt),
        st.hasController = true →
        runRetryLoop ctx cfg now (out :: rest) attempt (cancelOp st)
          = runRetryLoop ctx cfg now (out :: rest) attempt st) ∧
    (∀ (ctx : ServiceContext) (cfg : RequestConfig) (now : Int) (resp : HResp)
        (rest : List AttemptOutcome) (attempt : Nat) (st : EngineSt)
        (d : JSValue),
        st.destroyed = false → resp.ok = true →
        parseResponse resp.status resp.raw
          (ctx.interceptors.applyInterceptors cfg).responseType = .ok d →
        isExplicitlyEmptyStatus cfg resp.status = false →
        countFetchCalls (runRetryLoop ctx cfg now
            (.fetchResolve resp false :: rest) attempt st).events
          = countFetchCalls st.events + 1 ∧
        (runRetryLoop ctx cfg now (.fetchResolve resp false :: rest) attempt
          st).state = .success resp.status d) ∧
    (∀ (ctx : ServiceContext) (cfg : RequestConfig) (now : Int)
        (out : AttemptOutcome) (rest : List AttemptOutcome) (attempt : Nat)
        (st : EngineSt),
        (runRetryLoop ctx cfg now (out :: rest) attempt (destroyOp st)).events
          = st.events ∧
        (runRetryLoop ctx cfg now (out :: rest) attempt (destroyOp st)).state
          = st.state) := by
  refine ⟨?_, ?_, ?_⟩
  · intro ctx cfg now out rest attempt st hc
    simp [runRetryLoop, cancelOp, hc]
  · intro ctx cfg now resp rest attempt st d hLive hOk hParse hNE
    cases hc : st.hasController <;>
      cases hv : (ctx.interceptors.applyInterceptors cfg).validateResponse
          && (ctx.interceptors.applyInterceptors cfg).hasResponseSchema <;>
        cases htl : (ctx.interceptors.applyInterceptors cfg).ttl <;>
          simp [runRetryLoop, executeRequestAttempt, handleResponse,
            updateState, addEvent, countFetchCalls, hc, hv, htl, hLive, hOk,
            hParse, hNE, ok_ite, state_ite, events_ite, List.countP_append]
  · intro ctx cfg now out rest attempt st
    cases hc : st.hasController <;>
      simp [runRetryLoop, executeRequestAttempt, destroyOp, cancelOp, hc]

/-- C10 witness: a store mid-backoff (controller present, one scheduled
attempt remaining): cancelling changes nothing about the continuation, the
retry fires one network call and succeeds, and a destroyed store fires
none. -/
theorem c10_cancel_during_backoff_witness :
    (runRetryLoop ctx0 cfgPlain 1000 [.fetchResolve resp200 false] 2
        (cancelOp midBackoffStore)
      = runRetryLoop ctx0 cfgPlain 1000 [.fetchResolve resp200 false] 2
        midBackoffStore) ∧
    (countFetchCalls (runRetryLoop ctx0 cfgPlain 1000
        [.fetchResolve resp200 false] 2 midBackoffStore).events
      = countFetchCalls midBackoffStore.events + 1) ∧
    ((runRetryLoop ctx0 cfgPlain 1000 [.fetchResolve resp200 false] 2
        (destroyOp midBackoffStore)).events = midBackoffStore.events) :=
  ⟨(c10_cancel_does_not_prevent_pending_retry).1 ctx0 cfgPlain 1000
     (.fetchResolve resp200 false) [] 2 midBackoffStore rfl,
   ((c10_cancel_does_not_prevent_pending_retry).2.1 ctx0 cfgPlain 1000
     resp200 [] 2 midBackoffStore (.val "payload") rfl rfl rfl rfl).1,
   ((c10_cancel_does_not_prevent_pending_retry).2.2 ctx0 cfgPlain 1000
     (.fetchResolve resp200 false) [] 2 midBackoffStore).1⟩

-- ----------------------------------------------------------------------
-- C1
-- ----------------------------------------------------------------------

/-- C1: for a GET description with `ttl > 0`, no `forceRefresh`, and an
interceptor pipeline that leaves the config unchanged: a first `request()`
run whose attempt resolves to an `ok`, non-empty, parseable response
settles in `success` and writes the TTL cache; a second `request()` run
with the same fingerprint, while the entry is unexpired, performs zero
network calls and no interceptor pass (the event trace is exactly
unchanged), leaves the cache untouched, and publishes `success` with the
same `{status, data}` taken from the TTL cache. -/
theorem c1_second_request_served_from_cache
    (ctx : ServiceContext) (cfg : RequestConfig) (t : Int) (now1 now2 : Int)
    (resp : HResp) (d : JSValue)
    (hGet : isGetMethod cfg = true) (hFR : cfg.forceRefresh = false)
    (hTtl : cfg.ttl = some t) (hT : 0 < t)
    (hI : ctx.interceptors.applyInterceptors cfg = cfg)
    (hOk : resp.ok = true)
    (hParse : parseResponse resp.status resp.raw cfg.responseType = .ok d)
    (hNE : isExplicitlyEmptyStatus cfg resp.status = false)
    (hFresh : ¬(now1 + t < now2)) :
    let st1 := executeRequestWithRetry ctx cfg now1 false
      [.fetchResolve resp false] 1 initEngineSt
    let st2 := executeRequestWithRetry ctx cfg now2 false [] 1 st1
    st1.state = .success resp.status d ∧
    st2.state = .success resp.status d ∧
    st2.events = st1.events ∧
    st2.cache = st1.cache := by
  have hT2 : ¬t ≤ 0 := not_le.mpr hT
  have hT3 : t ≠ 0 := hT.ne'
  cases hv : cfg.validateResponse && cfg.hasResponseSchema <;>
    simp [executeRequestWithRetry, runRetryLoop, executeRequestAttempt,
      handleResponse, CacheStore.get, CacheStore.set, updateState, addEvent,
      initEngineSt, emptyCacheMap, mapLookup, mapInsert, hGet, hFR, hTtl, hI,
      hOk, hParse, hNE, hv, hT, hT2, hT3, hFresh]

/-- C1 witness: `GET /users` with ttl 5000 at time 1000; the cached second
run at time 2000 republishes `success 200 payload` with an unchanged event
trace. -/
theorem c1_second_request_witness :
    let st1 := executeRequestWithRetry ctx0 cfgGet5000 1000 false
      [.fetchResolve resp200 false] 1 initEngineSt
    let st2 := executeRequestWithRetry ctx0 cfgGet5000 2000 false [] 1 st1
    st1.state = .success 200 (.val "payload") ∧
    st2.state = .success 200 (.val "payload") ∧
    st2.events = st1.events :=
  ⟨(c1_second_request_served_from_cache ctx0 cfgGet5000 5000 1000 2000 resp200
      (.val "payload") rfl rfl rfl (by decide) rfl rfl rfl (by decide)
      (by decide)).1,
   (c1_second_request_served_from_cache ctx0 cfgGet5000 5000 1000 2000 resp200
      (.val "payload") rfl rfl rfl (by decide) rfl rfl rfl (by decide)
      (by decide)).2.1,
   (c1_second_request_served_from_cache ctx0 cfgGet5000 5000 1000 2000 resp200
      (.val "payload") rfl rfl rfl (by decide) rfl rfl rfl (by decide)
      (by decide)).2.2.1⟩

end FrontRequest
